import Mathlib

/-!
# Verification of the latency-testing scripts

Shallow embedding of the latency measurement and comparison logic of the
repository (test_gateway_latency.py, test_custom_endpoints.py,
test_health_check.py, quick_latency_test.py, enhanced_latency_test.py,
generate_csv_report.py, generate_excel_report.py).

Latency values and percentile ranks are modelled as rationals; Python's
float arithmetic is modelled by ℚ on the algebraic operations the scripts
use (+, -, *, /, comparisons).  Fallible operations (list indexing that
can raise IndexError, division that can raise ZeroDivisionError, HTTP
probes that can fail) are modelled with Option.
-/

/-! ## Percentile helpers -/

/-- Python `int(q)` on a rational: truncation toward zero. -/
def pyTrunc (q : ℚ) : ℤ :=
  if 0 ≤ q then ⌊q⌋ else ⌈q⌉

/-- Python list indexing `l[i]` with an `int` index: non-negative indices
count from the front, negative indices from the back, out-of-range raises
IndexError (modelled as `none`). -/
def pyGet (l : List ℚ) (i : ℤ) : Option ℚ :=
  if 0 ≤ i then l[i.toNat]?
  else if -i ≤ (l.length : ℤ) then l[(l.length - (-i).toNat)]?
  else none

/-- Python `sorted(data)`: the ascending sorted permutation of the list
(unique over a linear order). -/
def pythonSorted (data : List ℚ) : List ℚ :=
  List.insertionSort (fun a b => a ≤ b) data

/-- Body shared verbatim by the `_percentile` helpers of
`test_gateway_latency.py`, `test_custom_endpoints.py`,
`test_health_check.py` and `quick_latency_test.py`:

    sorted_data = sorted(data)
    index = (percentile / 100) * (len(sorted_data) - 1)
    lower_index = int(index)
    upper_index = min(lower_index + 1, len(sorted_data) - 1)
    weight = index - lower_index
    return sorted_data[lower_index] * (1 - weight) + sorted_data[upper_index] * weight

`none` models an IndexError escaping the helper. -/
def percentileBody (data : List ℚ) (percentile : ℚ) : Option ℚ :=
  let sorted_data := pythonSorted data
  let index : ℚ := (percentile / 100) * ((sorted_data.length : ℚ) - 1)
  let lower_index : ℤ := pyTrunc index
  let upper_index : ℤ := min (lower_index + 1) ((sorted_data.length : ℤ) - 1)
  let weight : ℚ := index - (lower_index : ℚ)
  match pyGet sorted_data lower_index, pyGet sorted_data upper_index with
  | some lo, some hi => some (lo * (1 - weight) + hi * weight)
  | _, _ => none

namespace LatencyTester

/-- `LatencyTester._percentile` (test_gateway_latency.py, lines 173-182):
guarded by `if not data: return 0`, then the common percentile body. -/
def percentile (data : List ℚ) (p : ℚ) : Option ℚ :=
  if data.isEmpty then some 0 else percentileBody data p

end LatencyTester

namespace CustomEndpointTest

/-- `CustomEndpointTest._percentile` (test_custom_endpoints.py, lines
173-180): identical body, but no empty-list guard. -/
def percentile (data : List ℚ) (p : ℚ) : Option ℚ :=
  percentileBody data p

end CustomEndpointTest

namespace SimpleHealthCheckTest

/-- `SimpleHealthCheckTest._percentile` (test_health_check.py, lines
171-178): identical body, but no empty-list guard. -/
def percentile (data : List ℚ) (p : ℚ) : Option ℚ :=
  percentileBody data p

end SimpleHealthCheckTest

/-- The percentile computation exactly as the specification words it
(spec §4.3): sort ascending, `index = (p/100) * (n-1)`,
`lo = floor(index)`, `hi = min(lo+1, n-1)`, `w = index - lo`,
result `sorted[lo]*(1-w) + sorted[hi]*w`. -/
def specPercentile (series : List ℚ) (p : ℚ) : ℚ :=
  let sorted := pythonSorted series
  let n := sorted.length
  let index : ℚ := (p / 100) * ((n : ℚ) - 1)
  let lo : ℤ := ⌊index⌋
  let hi : ℤ := min (lo + 1) ((n : ℤ) - 1)
  let w : ℚ := index - (lo : ℚ)
  sorted.getD lo.toNat 0 * (1 - w) + sorted.getD hi.toNat 0 * w

/-! ## Probe classification -/

/-- The observable part of one HTTP request attempt: either the request
raised an exception (network error, timeout, TLS/DNS failure) or a
response with some status code arrived. -/
inductive HttpAttempt : Type
  | exn : HttpAttempt
  | response (status : ℕ) : HttpAttempt

/-- `LatencyTester.measure_request_latency` (test_gateway_latency.py,
lines 70-85) as a function of the attempt outcome and the elapsed time in
seconds: exception → `None`; status ≥ 500 → `None`; otherwise the elapsed
time converted to milliseconds. -/
def measure_request_latency (attempt : HttpAttempt) (elapsed : ℚ) : Option ℚ :=
  match attempt with
  | .exn => none
  | .response status => if status < 500 then some (elapsed * 1000) else none

namespace SimpleHealthCheckTest

/-- `SimpleHealthCheckTest.measure_latency` (test_health_check.py, lines
39-59) as a function of the attempt outcome and the elapsed time in
seconds: exception → `None`; status ≥ 400 → `None`; otherwise the elapsed
time converted to milliseconds. -/
def measure_latency (attempt : HttpAttempt) (elapsed : ℚ) : Option ℚ :=
  match attempt with
  | .exn => none
  | .response status => if status ≥ 400 then none else some (elapsed * 1000)

end SimpleHealthCheckTest

/-! ## Statistics -/

/-- Python `statistics.mean`. -/
def pythonMean (l : List ℚ) : ℚ :=
  l.sum / l.length

/-- Python `statistics.median`: midpoint of the sorted values, averaging
the two middle values for an even-length list. -/
def pythonMedian (l : List ℚ) : ℚ :=
  let s := pythonSorted l
  let n := s.length
  if n % 2 = 1 then s.getD (n / 2) 0
  else (s.getD (n / 2 - 1) 0 + s.getD (n / 2) 0) / 2

/-- Sample variance (divisor n − 1), the square of Python
`statistics.stdev`. -/
def sampleVariance (l : List ℚ) : ℚ :=
  ((l.map (fun x => (x - pythonMean l) ^ 2)).sum) / (l.length - 1)

/-- Python `min` of a non-empty list (0 as the never-used default). -/
def pythonMin (l : List ℚ) : ℚ :=
  l.foldr min (l.headD 0)

/-- Python `max` of a non-empty list (0 as the never-used default). -/
def pythonMax (l : List ℚ) : ℚ :=
  l.foldr max (l.headD 0)

/-- The statistics dictionary built by `calculate_stats` for a non-empty
latency list (test_gateway_latency.py, lines 136-145). -/
structure StatSummary : Type where
  count : ℕ
  mean : ℚ
  median : ℚ
  min : ℚ
  max : ℚ
  std_dev : ℝ
  p95 : ℚ
  p99 : ℚ

/-- The two shapes a `calculate_stats` return value can take: the
error-marker dictionary `{"error": msg}` or a full statistics summary. -/
inductive StatsResult : Type
  | error (msg : String) : StatsResult
  | stats (s : StatSummary) : StatsResult

/-- `calculate_stats` (test_gateway_latency.py, lines 132-145): an empty
latency list yields the dictionary `{"error": "No successful requests"}`
(returned normally, not raised); otherwise the full summary. -/
noncomputable def calculate_stats (latencies : List ℚ) : StatsResult :=
  if latencies.isEmpty then .error "No successful requests"
  else .stats
    { count := latencies.length
      mean := pythonMean latencies
      median := pythonMedian latencies
      min := pythonMin latencies
      max := pythonMax latencies
      std_dev := if latencies.length > 1 then Real.sqrt (sampleVariance latencies) else 0
      p95 := (LatencyTester.percentile latencies 95).getD 0
      p99 := (LatencyTester.percentile latencies 99).getD 0 }

/-- The `count` field of a `calculate_stats` result, when one is defined
(the error-marker dictionary has no `count` key). -/
noncomputable def statsCount : StatsResult → Option ℕ
  | .error _ => none
  | .stats s => some s.count

/-! ## Delta percentages -/

/-- `EnhancedLatencyTest.compare_results` percent computation
(enhanced_latency_test.py, lines 220-223):
`(additional_latency / old_avg) * 100 if old_avg > 0 else 0` with
`additional_latency = new_avg - old_avg`. -/
def compare_results_percent (old_avg new_avg : ℚ) : ℚ :=
  if old_avg > 0 then (new_avg - old_avg) / old_avg * 100 else 0

/-- `print_results` percent computation (test_gateway_latency.py, lines
213-217): `(additional_val / old_val * 100) if old_val > 0 else 0`. -/
def print_results_percent (old_val additional_val : ℚ) : ℚ :=
  if old_val > 0 then additional_val / old_val * 100 else 0

/-- `QuickLatencyTest.compare_environments` percent computation
(quick_latency_test.py, lines 102-105):
`(additional_latency / old_avg) * 100` with no guard — `none` models the
ZeroDivisionError raised when `old_avg == 0`. -/
def compare_environments_percent (old_avg new_avg : ℚ) : Option ℚ :=
  if old_avg = 0 then none else some ((new_avg - old_avg) / old_avg * 100)

/-! ## Verdicts and report statuses -/

/-- The qualitative latency verdict printed by the latency testers. -/
inductive Verdict : Type
  | excellent : Verdict
  | good : Verdict
  | fair : Verdict
  | concerning : Verdict
deriving DecidableEq

/-- `EnhancedLatencyTest.print_endpoint_summary` status branches
(enhanced_latency_test.py, lines 256-263): `< 5` Excellent, `< 15` Good,
`< 30` Fair, else Concerning, applied to the mean additional latency. -/
def print_endpoint_summary_verdict (additional : ℚ) : Verdict :=
  if additional < 5 then .excellent
  else if additional < 15 then .good
  else if additional < 30 then .fair
  else .concerning

/-- `QuickLatencyTest.compare_environments` assessment branches
(quick_latency_test.py, lines 112-119): same thresholds as
`print_endpoint_summary`. -/
def compare_environments_verdict (additional_latency : ℚ) : Verdict :=
  if additional_latency < 5 then .excellent
  else if additional_latency < 15 then .good
  else if additional_latency < 30 then .fair
  else .concerning

/-- The status word each verdict is printed with. -/
def verdictLabel : Verdict → String
  | .excellent => "Excellent"
  | .good => "Good"
  | .fair => "Fair"
  | .concerning => "Concerning"

/-- Status classification of `create_csv_reports`
(generate_csv_report.py, line 110):
`"Excellent" if mean < 10 else "Good" if mean < 25 else "Fair"`. -/
def create_csv_reports_status (mean_additional : ℚ) : String :=
  if mean_additional < 10 then "Excellent"
  else if mean_additional < 25 then "Good"
  else "Fair"

/-- Status classification of `create_excel_report`
(generate_excel_report.py, line 100):
`"Good" if mean < 25 else "Fair"`. -/
def create_excel_report_status (mean_additional : ℚ) : String :=
  if mean_additional < 25 then "Good"
  else "Fair"

/-! ## Endpoints and request headers -/

/-- An entry of `EnhancedLatencyTest.get_test_endpoints`
(enhanced_latency_test.py, lines 60-93). -/
structure Endpoint : Type where
  name : String
  path : String
  auth_required : Bool
  expected_size : String
  processing : String

/-- `EnhancedLatencyTest.get_test_endpoints` (enhanced_latency_test.py,
lines 60-93). -/
def get_test_endpoints (customer_id venture_id : String) : List Endpoint :=
  [ { name := "Health Check"
      path := "/health-check"
      auth_required := false
      expected_size := "tiny (~20B)"
      processing := "minimal" },
    { name := "Brands Status"
      path := "/v1/customer/" ++ customer_id ++ "/venture/" ++ venture_id ++ "/inferred/brands/status"
      auth_required := true
      expected_size := "small (~200B)"
      processing := "moderate (auth + external call)" },
    { name := "Brands Data"
      path := "/v1/customer/" ++ customer_id ++ "/venture/" ++ venture_id ++ "/inferred/brands"
      auth_required := true
      expected_size := "large (~2KB+)"
      processing := "heavy (auth + external call + data processing)" },
    { name := "Logo URL"
      path := "/v1/customer/" ++ customer_id ++ "/venture/" ++ venture_id ++ "/inferred/logo-url"
      auth_required := true
      expected_size := "small (~100B)"
      processing := "moderate (auth + external call)" } ]

/-- Header construction of `EnhancedLatencyTest.test_endpoint`
(enhanced_latency_test.py, lines 107-109): `headers = {}`, then
`headers["Authorization"] = f"Bearer {auth_token}"` only when
`auth_required`. -/
def test_endpoint_headers (auth_required : Bool) (auth_token : String) :
    List (String × String) :=
  if auth_required then [("Authorization", "Bearer " ++ auth_token)] else []

/-- Header construction of `LatencyTester.run_latency_test`
(test_gateway_latency.py, line 89):
`headers = {"Authorization": f"Bearer {self.auth_token}"}`,
unconditionally, for every request of the batch. -/
def run_latency_test_headers (auth_token : String) : List (String × String) :=
  [("Authorization", "Bearer " ++ auth_token)]

/-- `LatencyTester.test_endpoints` (test_gateway_latency.py, lines
46-58): the endpoint paths the comprehensive tester probes; the first is
the `/health-check` baseline, commented "no auth" in the source. -/
def latencyTester_test_endpoints (environment : String) : List String :=
  let venture_id := if environment = "prod"
    then "02c97c68-65ab-4805-9e46-22f13aae55e4"
    else "a4a93b88-da14-4532-a737-0712489bd017"
  let customer_id := "00000000-0000-0000-0000-000000000000"
  [ "/health-check",
    "/v1/customer/" ++ customer_id ++ "/venture/" ++ venture_id ++ "/inferred/brands/status",
    "/v1/customer/" ++ customer_id ++ "/venture/" ++ venture_id ++ "/inferred/logo-url" ]

example : LatencyTester.percentile [10, 20, 30, 40] 75 = some (65/2) := by
  norm_num [LatencyTester.percentile, percentileBody, pythonSorted, pyTrunc, pyGet,
    List.insertionSort, List.orderedInsert]
  simp
  norm_num

example : LatencyTester.percentile [] 95 = some 0 := by decide
example : CustomEndpointTest.percentile [] 95 = none := by
  norm_num [CustomEndpointTest.percentile, percentileBody, pythonSorted, pyTrunc, pyGet,
    List.insertionSort, List.orderedInsert]
example : LatencyTester.percentile [3, 1, 2] 100 = some 3 := by
  norm_num [LatencyTester.percentile, percentileBody, pythonSorted, pyTrunc, pyGet,
    List.insertionSort, List.orderedInsert]
  simp
example : LatencyTester.percentile [3, 1, 2] 0 = some 1 := by
  norm_num [LatencyTester.percentile, percentileBody, pythonSorted, pyTrunc, pyGet,
    List.insertionSort, List.orderedInsert]
example : specPercentile [10, 20, 30, 40] 75 = 65/2 := by
  norm_num [specPercentile, pythonSorted, List.insertionSort, List.orderedInsert]
  simp
  norm_num

/-! ## Helper lemmas -/

lemma pyGet_nil (i : ℤ) : pyGet [] i = none := by
  unfold pyGet
  split
  · simp
  · split <;> simp

lemma pyGet_eq_getD (l : List ℚ) (i : ℤ) (h0 : 0 ≤ i) (h1 : i < (l.length : ℤ)) :
    pyGet l i = some (l.getD i.toNat 0) := by
  unfold pyGet
  rw [if_pos h0]
  have hlt : i.toNat < l.length := by omega
  rw [List.getElem?_eq_getElem hlt, List.getD_eq_getElem l 0 hlt]

lemma percentileBody_nil (p : ℚ) : percentileBody [] p = none := by
  unfold percentileBody
  simp only [pythonSorted, List.insertionSort, pyGet_nil]

lemma pythonSorted_perm (data : List ℚ) : List.Perm (pythonSorted data) data :=
  List.perm_insertionSort _ data

lemma pythonSorted_sorted (data : List ℚ) :
    List.Sorted (· ≤ ·) (pythonSorted data) :=
  List.sorted_insertionSort _ data

lemma pythonSorted_length (data : List ℚ) :
    (pythonSorted data).length = data.length :=
  (pythonSorted_perm data).length_eq

/-- For a non-empty series and a percentile rank in [0, 100], the shared
`_percentile` body succeeds and computes the spec formula: truncation
agrees with floor on the non-negative fractional rank, and both lookups
are in range. -/
lemma percentileBody_eq_specPercentile (data : List ℚ) (p : ℚ)
    (hne : data ≠ []) (hp0 : 0 ≤ p) (hp1 : p ≤ 100) :
    percentileBody data p = some (specPercentile data p) := by
  have hn : 1 ≤ (pythonSorted data).length := by
    rw [pythonSorted_length]
    exact List.length_pos.mpr hne
  simp only [percentileBody, specPercentile]
  set S := pythonSorted data with hS
  set index : ℚ := p / 100 * ((S.length : ℚ) - 1) with hidx
  have hS1 : (1 : ℚ) ≤ (S.length : ℚ) := by exact_mod_cast hn
  have h0 : 0 ≤ index := by
    apply mul_nonneg (div_nonneg hp0 (by norm_num))
    linarith
  have h1 : index ≤ (S.length : ℚ) - 1 := by
    have hp : p / 100 ≤ 1 := by
      rw [div_le_one (by norm_num : (0:ℚ) < 100)]
      exact hp1
    calc index = (p / 100) * ((S.length : ℚ) - 1) := hidx
      _ ≤ 1 * ((S.length : ℚ) - 1) := by
          apply mul_le_mul_of_nonneg_right hp
          linarith
      _ = (S.length : ℚ) - 1 := one_mul _
  have htr : pyTrunc index = ⌊index⌋ := by
    unfold pyTrunc
    rw [if_pos h0]
  have hfl0 : 0 ≤ ⌊index⌋ := Int.floor_nonneg.mpr h0
  have hfl1 : ⌊index⌋ ≤ (S.length : ℤ) - 1 := by
    have hcast : ((S.length : ℚ) - 1) = (((S.length : ℤ) - 1 : ℤ) : ℚ) := by
      push_cast
      ring
    have := Int.floor_le_floor h1
    rwa [hcast, Int.floor_intCast] at this
  rw [htr]
  have hget1 : pyGet S ⌊index⌋ = some (S.getD (⌊index⌋).toNat 0) :=
    pyGet_eq_getD S _ hfl0 (by omega)
  have hget2 : pyGet S (min (⌊index⌋ + 1) ((S.length : ℤ) - 1)) =
      some (S.getD (min (⌊index⌋ + 1) ((S.length : ℤ) - 1)).toNat 0) :=
    pyGet_eq_getD S _ (by omega) (by omega)
  rw [hget1, hget2]

/-! ## Claim theorems -/

/-- C1: for every non-empty latency series and every percentile rank
`p ∈ [0, 100]`, `LatencyTester._percentile` computes exactly the spec's
linear-interpolation formula (sort ascending, `index = (p/100)*(n-1)`,
`lo = floor(index)`, `hi = min(lo+1, n-1)`, `w = index - lo`, result
`sorted[lo]*(1-w) + sorted[hi]*w`). -/
theorem percentile_matches_spec (data : List ℚ) (p : ℚ)
    (hne : data ≠ []) (hp0 : 0 ≤ p) (hp1 : p ≤ 100) :
    LatencyTester.percentile data p = some (specPercentile data p) := by
  unfold LatencyTester.percentile
  rw [if_neg (by simpa using hne)]
  exact percentileBody_eq_specPercentile data p hne hp0 hp1

/-- C1 witness: the claim's concrete instance — for the series
`[10, 20, 30, 40]`, percentile 75 is 32.5. -/
theorem percentile_matches_spec_witness :
    LatencyTester.percentile [10, 20, 30, 40] 75 = some (65 / 2) := by
  rw [percentile_matches_spec [10, 20, 30, 40] 75 (by simp) (by norm_num) (by norm_num)]
  norm_num [specPercentile, pythonSorted, List.insertionSort, List.orderedInsert]
  simp
  norm_num

/-- C10: on the empty list every percentile rank is handled by
`LatencyTester._percentile`'s explicit guard (returning 0), while the
guard-less, otherwise-identical helpers of test_custom_endpoints.py and
test_health_check.py hit an out-of-range index (IndexError, modelled as
`none`). -/
theorem percentile_empty_guard_divergence (p : ℚ) :
    LatencyTester.percentile [] p = some 0 ∧
    CustomEndpointTest.percentile [] p = none ∧
    SimpleHealthCheckTest.percentile [] p = none :=
  ⟨rfl, percentileBody_nil p, percentileBody_nil p⟩

/-- C3: both verdict functions (enhanced_latency_test.py
`print_endpoint_summary` and quick_latency_test.py
`compare_environments`) map a mean delta `d < 5` to excellent,
`5 ≤ d < 15` to good, `15 ≤ d < 30` to fair and `d ≥ 30` to concerning;
every negative delta is excellent, and the boundary `d = 15` is fair,
not good. -/
theorem verdict_thresholds (d : ℚ) :
    (d < 5 → print_endpoint_summary_verdict d = .excellent ∧
      compare_environments_verdict d = .excellent) ∧
    (5 ≤ d → d < 15 → print_endpoint_summary_verdict d = .good ∧
      compare_environments_verdict d = .good) ∧
    (15 ≤ d → d < 30 → print_endpoint_summary_verdict d = .fair ∧
      compare_environments_verdict d = .fair) ∧
    (30 ≤ d → print_endpoint_summary_verdict d = .concerning ∧
      compare_environments_verdict d = .concerning) ∧
    (d < 0 → print_endpoint_summary_verdict d = .excellent ∧
      compare_environments_verdict d = .excellent) ∧
    (print_endpoint_summary_verdict 15 = .fair ∧
      compare_environments_verdict 15 = .fair ∧
      print_endpoint_summary_verdict 15 ≠ .good) := by
  unfold print_endpoint_summary_verdict compare_environments_verdict
  refine ⟨?_, ?_, ?_, ?_, ?_, ?_, ?_, ?_⟩
  · intro h
    constructor <;> simp only [if_pos h]
  · intro h1 h2
    constructor <;> rw [if_neg (by linarith), if_pos h2]
  · intro h1 h2
    constructor <;> rw [if_neg (by linarith), if_neg (by linarith), if_pos h2]
  · intro h
    constructor <;>
      rw [if_neg (by linarith), if_neg (by linarith), if_neg (by linarith)]
  · intro h
    constructor <;> simp only [if_pos (show d < 5 by linarith)]
  · decide
  · decide
  · decide

/-- C3 witness: a negative delta maps to excellent in both verdict
functions. -/
theorem verdict_thresholds_witness :
    print_endpoint_summary_verdict (-3) = .excellent ∧
    compare_environments_verdict (-3) = .excellent :=
  (verdict_thresholds (-3)).2.2.2.2.1 (by norm_num)

/-- C2 counterexample: in test_health_check.py a 404 client-error
response is classified as a failure (`None`, no latency recorded),
refuting "a 2xx–4xx response is never classified as a failure" for that
cited probe function. -/
theorem healthcheck_404_failure_counterexample :
    SimpleHealthCheckTest.measure_latency (.response 404) 1 = none := rfl

/-- C2 amended: `LatencyTester.measure_request_latency` classifies as the
claim states (exception → failure, status ≥ 500 → failure, status < 500
→ success with elapsed milliseconds), but
`SimpleHealthCheckTest.measure_latency` uses the threshold 400: every
status ≥ 400 — including each 4xx client error — is a failure there. -/
theorem probe_classification (s : ℕ) (t : ℚ) :
    (s < 500 → measure_request_latency (.response s) t = some (t * 1000)) ∧
    (500 ≤ s → measure_request_latency (.response s) t = none) ∧
    measure_request_latency .exn t = none ∧
    (s < 400 → SimpleHealthCheckTest.measure_latency (.response s) t = some (t * 1000)) ∧
    (400 ≤ s → SimpleHealthCheckTest.measure_latency (.response s) t = none) ∧
    SimpleHealthCheckTest.measure_latency .exn t = none := by
  refine ⟨fun h => ?_, fun h => ?_, rfl, fun h => ?_, fun h => ?_, rfl⟩
  · show (if s < 500 then some (t * 1000) else none) = some (t * 1000)
    rw [if_pos h]
  · show (if s < 500 then some (t * 1000) else none) = none
    rw [if_neg (by omega)]
  · show (if 400 ≤ s then none else some (t * 1000)) = some (t * 1000)
    rw [if_neg (by omega)]
  · show (if 400 ≤ s then none else some (t * 1000)) = none
    rw [if_pos h]

/-- C2 witness: at status 404 the gateway tester records a sample while
the health-check tester records a failure. -/
theorem probe_classification_witness :
    measure_request_latency (.response 404) (1/2) = some (1/2 * 1000) ∧
    SimpleHealthCheckTest.measure_latency (.response 404) (1/2) = none :=
  ⟨(probe_classification 404 (1/2)).1 (by norm_num),
   (probe_classification 404 (1/2)).2.2.2.2.1 (by norm_num)⟩

/-- C5 counterexample: `calculate_stats` on the empty series does not
produce a summary with `count = 0` — there is no count field at all in
its result. -/
theorem empty_stats_no_count_counterexample :
    statsCount (calculate_stats []) ≠ some 0 := by
  simp [calculate_stats, statsCount]

/-- C5 amended: summarizing an empty latency series returns — normally,
not raised — the designated no-data marker `{"error": "No successful
requests"}`, which carries no numeric field (not even a count); callers
detect it by the error key, not by a zero count. -/
theorem empty_stats_error_marker :
    calculate_stats [] = StatsResult.error "No successful requests" ∧
    statsCount (calculate_stats []) = none := by
  constructor <;> simp [calculate_stats, statsCount]

/-- C6 counterexample: the percent computation of
quick_latency_test.py `compare_environments` is not guarded — at
`old_avg = 0` it raises ZeroDivisionError (modelled as `none`) instead of
yielding the claimed 0. -/
theorem quick_percent_unguarded_counterexample :
    compare_environments_percent 0 10 = none ∧
    compare_environments_percent 0 10 ≠ some 0 := by
  constructor <;> simp [compare_environments_percent]

/-- C6 amended: the guard holds at two of the three cited sites —
`EnhancedLatencyTest.compare_results` and `print_results` compute
`(new - old) / old * 100` when `old > 0` and 0 otherwise — but
`QuickLatencyTest.compare_environments` divides unguarded: it computes
the quotient whenever `old ≠ 0` (also for negative `old`) and raises
ZeroDivisionError when `old = 0`. -/
theorem percent_delta_guards (o v : ℚ) :
    (o > 0 → compare_results_percent o v = (v - o) / o * 100 ∧
      print_results_percent o (v - o) = (v - o) / o * 100) ∧
    (o ≤ 0 → compare_results_percent o v = 0 ∧
      print_results_percent o (v - o) = 0) ∧
    (o ≠ 0 → compare_environments_percent o v = some ((v - o) / o * 100)) ∧
    (o = 0 → compare_environments_percent o v = none) := by
  unfold compare_results_percent print_results_percent compare_environments_percent
  refine ⟨fun h => ?_, fun h => ?_, fun h => ?_, fun h => ?_⟩
  · constructor <;> rw [if_pos h]
  · constructor <;> rw [if_neg (by linarith)]
  · rw [if_neg h]
  · rw [if_pos h]

/-- C6 witness: at `old = 2`, `new = 3` all three sites compute the
quotient formula. -/
theorem percent_delta_guards_witness :
    compare_results_percent 2 3 = (3 - 2) / 2 * 100 ∧
    print_results_percent 2 (3 - 2) = (3 - 2) / 2 * 100 :=
  (percent_delta_guards 2 3).1 (by norm_num)

/-- C7 counterexample: `/health-check` requires no authentication (its
`get_test_endpoints` entry has `auth_required = False` and it is in
`LatencyTester.test_endpoints` as the commented no-auth baseline), yet
`LatencyTester.run_latency_test` attaches the bearer token to the batch
headers unconditionally. -/
theorem unconditional_auth_header_counterexample :
    ((get_test_endpoints "00000000-0000-0000-0000-000000000000"
        "a4a93b88-da14-4532-a737-0712489bd017").headD
      ⟨"x", "x", true, "x", "x"⟩).auth_required = false ∧
    "/health-check" ∈ latencyTester_test_endpoints "dev" ∧
    List.lookup "Authorization" (run_latency_test_headers "tok") =
      some ("Bearer " ++ "tok") := by
  refine ⟨rfl, ?_, ?_⟩
  · simp [latencyTester_test_endpoints]
  · simp [run_latency_test_headers]

/-- C7 amended: `EnhancedLatencyTest.test_endpoint` sends the bearer
token exactly when the endpoint requires authentication; the batches of
`LatencyTester.run_latency_test` send the Authorization header for every
request regardless of the endpoint. -/
theorem auth_header_policy (token : String) :
    List.lookup "Authorization" (test_endpoint_headers true token) =
      some ("Bearer " ++ token) ∧
    List.lookup "Authorization" (test_endpoint_headers false token) = none ∧
    List.lookup "Authorization" (run_latency_test_headers token) =
      some ("Bearer " ++ token) := by
  refine ⟨?_, rfl, ?_⟩ <;> simp [test_endpoint_headers, run_latency_test_headers]

/-- C9: the CSV report generator classifies the mean delta with the
threshold set `< 10 → Excellent, < 25 → Good, otherwise Fair`, which
differs from the probe-time verdict thresholds (`< 5, < 15, < 30`): at a
mean delta of 7 the report says Excellent while the probe-time verdict
says Good, and the Excel generator (which lacks the Excellent band
entirely) disagrees with the probe-time verdict at 1. -/
theorem report_status_thresholds_differ :
    (∀ d : ℚ, (d < 10 → create_csv_reports_status d = "Excellent") ∧
      (10 ≤ d → d < 25 → create_csv_reports_status d = "Good") ∧
      (25 ≤ d → create_csv_reports_status d = "Fair")) ∧
    create_csv_reports_status 7 = "Excellent" ∧
    verdictLabel (print_endpoint_summary_verdict 7) = "Good" ∧
    create_csv_reports_status 7 ≠ verdictLabel (print_endpoint_summary_verdict 7) ∧
    create_excel_report_status 1 ≠ verdictLabel (print_endpoint_summary_verdict 1) := by
  refine ⟨fun d => ⟨fun h => ?_, fun h1 h2 => ?_, fun h => ?_⟩, ?_, ?_, ?_, ?_⟩
  · unfold create_csv_reports_status
    rw [if_pos h]
  · unfold create_csv_reports_status
    rw [if_neg (by linarith), if_pos h2]
  · unfold create_csv_reports_status
    rw [if_neg (by linarith), if_neg (by linarith)]
  · decide
  · decide
  · decide
  · decide

/-- C9 witness: the universally quantified part applied at a concrete
delta. -/
theorem report_status_thresholds_differ_witness :
    create_csv_reports_status 7 = "Excellent" :=
  (report_status_thresholds_differ.1 7).1 (by norm_num)

/-! ## Percentile extremes (C8) -/

lemma specPercentile_100 (data : List ℚ) (hne : data ≠ []) :
    specPercentile data 100 =
      (pythonSorted data).getD ((pythonSorted data).length - 1) 0 := by
  simp only [specPercentile]
  set S := pythonSorted data with hS
  have hn : 1 ≤ S.length := by
    rw [hS, pythonSorted_length]
    exact List.length_pos.mpr hne
  have hidx : (100 / 100 : ℚ) * ((S.length : ℚ) - 1) =
      (((S.length : ℤ) - 1 : ℤ) : ℚ) := by
    push_cast
    ring
  rw [hidx, Int.floor_intCast]
  have hmin : min ((S.length : ℤ) - 1 + 1) ((S.length : ℤ) - 1) =
      (S.length : ℤ) - 1 := by omega
  rw [hmin]
  have htn : ((S.length : ℤ) - 1).toNat = S.length - 1 := by omega
  rw [htn]
  ring

lemma specPercentile_0 (data : List ℚ) :
    specPercentile data 0 = (pythonSorted data).getD 0 0 := by
  simp only [specPercentile]
  set S := pythonSorted data with hS
  have hidx : (0 / 100 : ℚ) * ((S.length : ℚ) - 1) = ((0 : ℤ) : ℚ) := by
    norm_num
  rw [hidx, Int.floor_intCast]
  have htn : (0 : ℤ).toNat = 0 := rfl
  rw [htn]
  ring

lemma sorted_getElem_le_getElem (S : List ℚ) (hsort : List.Sorted (· ≤ ·) S)
    (i j : ℕ) (hij : i ≤ j) (hj : j < S.length) :
    S.getD i 0 ≤ S.getD j 0 := by
  rw [List.getD_eq_getElem S 0 (lt_of_le_of_lt hij hj), List.getD_eq_getElem S 0 hj]
  rcases lt_or_eq_of_le hij with h | h
  · exact List.pairwise_iff_getElem.mp hsort i j _ hj h
  · subst h
    exact le_refl _

/-- C8: on every non-empty series, `LatencyTester._percentile` at rank
100 returns the maximum of the series and at rank 0 the minimum. -/
theorem percentile_extremes (data : List ℚ) (hne : data ≠ []) :
    LatencyTester.percentile data 100 = data.max? ∧
    LatencyTester.percentile data 0 = data.min? := by
  have hperm := pythonSorted_perm data
  have hsort := pythonSorted_sorted data
  have hlen : (pythonSorted data).length = data.length := hperm.length_eq
  have hn : 1 ≤ (pythonSorted data).length := by
    rw [hlen]
    exact List.length_pos.mpr hne
  set S := pythonSorted data with hS
  have hlast_lt : S.length - 1 < S.length := by omega
  have hzero_lt : 0 < S.length := by omega
  have hmem_last : S.getD (S.length - 1) 0 ∈ data := by
    rw [List.getD_eq_getElem S 0 hlast_lt]
    exact hperm.mem_iff.mp (List.getElem_mem hlast_lt)
  have hmem_head : S.getD 0 0 ∈ data := by
    rw [List.getD_eq_getElem S 0 hzero_lt]
    exact hperm.mem_iff.mp (List.getElem_mem hzero_lt)
  have hub : ∀ x ∈ data, x ≤ S.getD (S.length - 1) 0 := by
    intro x hx
    obtain ⟨i, hi, rfl⟩ := List.mem_iff_getElem.mp (hperm.mem_iff.mpr hx)
    rw [← List.getD_eq_getElem S 0 hi]
    exact sorted_getElem_le_getElem S hsort i (S.length - 1) (by omega) hlast_lt
  have hlb : ∀ x ∈ data, S.getD 0 0 ≤ x := by
    intro x hx
    obtain ⟨i, hi, rfl⟩ := List.mem_iff_getElem.mp (hperm.mem_iff.mpr hx)
    rw [← List.getD_eq_getElem S 0 hi]
    exact sorted_getElem_le_getElem S hsort 0 i (by omega) hi
  have hanti : Std.Antisymm ((· ≤ ·) : ℚ → ℚ → Prop) :=
    ⟨fun h1 h2 => le_antisymm h1 h2⟩
  have hmax : data.max? = some (S.getD (S.length - 1) 0) := by
    rw [List.max?_eq_some_iff (fun a => le_refl a) (fun a b => max_choice a b)
      (fun a b c => max_le_iff)]
    exact ⟨hmem_last, hub⟩
  have hmin : data.min? = some (S.getD 0 0) := by
    rw [List.min?_eq_some_iff (fun a => le_refl a) (fun a b => min_choice a b)
      (fun a b c => le_min_iff)]
    exact ⟨hmem_head, hlb⟩
  constructor
  · rw [percentile_matches_spec data 100 hne (by norm_num) (by norm_num), hmax,
      specPercentile_100 data hne]
  · rw [percentile_matches_spec data 0 hne (by norm_num) (by norm_num), hmin,
      specPercentile_0 data]

/-- C8 witness: on the concrete series `[3, 1, 2]` the extreme
percentile ranks return the maximum 3 and the minimum 1. -/
theorem percentile_extremes_witness :
    LatencyTester.percentile [3, 1, 2] 100 = some 3 ∧
    LatencyTester.percentile [3, 1, 2] 0 = some 1 := by
  have h := percentile_extremes [3, 1, 2] (by simp)
  constructor
  · rw [h.1]
    decide
  · rw [h.2]
    decide
